import Mathlib

/-!
Shallow embedding of the pairing bot core (src/bot.py): roster loading,
conflict-filtered judge selection, and the pairing-generation pipeline.
Randomness is modelled by explicit oracle parameters: an opponent index
for `random.choice(eligible_opponents)`, a Boolean for the side coin flip,
and a list of pairwise-distinct in-range pool indices for
`random.sample(available_judges, count)`.
-/

/-- A competitor record produced by `load_rankings` (bot.py lines 44-49). -/
structure Debater where
  rank : String
  school : String
  name : String
  rating : String
deriving Repr, DecidableEq, Inhabited

/-- A raw CSV data row with the four named columns the loader reads. -/
structure CsvRow where
  rank : String
  school : String
  name : String
  rating : String
deriving Repr, DecidableEq

/-- The `entries` field of a tournament JSON record. `absent` models a
missing key (the bare lookup raises KeyError), `invalid` models a present
value whose processing (`set(...)` or the membership filter) raises, and
`present names` models a well-formed list of competitor names. -/
inductive EntriesField where
  | absent
  | invalid
  | present (names : List String)
deriving Repr, DecidableEq

/-- A tournament catalog record: a judge pool plus the `entries` field. -/
structure Tournament where
  judges : List String
  entries : EntriesField
deriving Repr, DecidableEq

/-- The loop body of `load_rankings` (bot.py lines 41-49): enumerate rows,
stop as soon as the index reaches 50, copy the four columns into a record. -/
def load_rankings_aux : Nat → List CsvRow → List Debater
  | _, [] => []
  | i, row :: rest =>
    if 50 ≤ i then []
    else ⟨row.rank, row.school, row.name, row.rating⟩ :: load_rankings_aux (i + 1) rest

/-- The loader `load_rankings` (bot.py lines 37-50): read data rows in order, keeping
at most the first 50. -/
def load_rankings (rows : List CsvRow) : List Debater :=
  load_rankings_aux 0 rows

/-- Errors raised by `select_judges` as ValueError (bot.py lines 62-74). -/
inductive JudgeError where
  | tournamentNotFound (available : List String)
  | insufficientJudges (needed : Nat) (available : Nat)
deriving Repr, DecidableEq

/-- The judge pool after conflict filtering (bot.py lines 66-71): start from
a copy of the judge list; filter only when `conflict_list` is truthy (not
None and not the empty string) and is a key of the conflict catalog, keeping
exactly the judges whose name is not in the exclusion list (exact match). -/
def filteredPool (t : Tournament) (conflicts_data : List (String × List String))
    (conflict_list : Option String) : List String :=
  match conflict_list with
  | none => t.judges
  | some c =>
    if c = "" then t.judges
    else
      match conflicts_data.lookup c with
      | none => t.judges
      | some conflicted => t.judges.filter (fun j => !conflicted.contains j)

/-- The function `select_judges` (bot.py lines 60-76), with `random.sample` modelled by
the index list `idxs` into the filtered pool. -/
def select_judges (tournaments_data : List (String × Tournament))
    (conflicts_data : List (String × List String)) (tournament : String)
    (conflict_list : Option String) (count : Nat) (idxs : List Nat) :
    Except JudgeError (List String) :=
  match tournaments_data.lookup tournament with
  | none => .error (.tournamentNotFound (tournaments_data.map Prod.fst))
  | some t =>
    if (filteredPool t conflicts_data conflict_list).length < count then
      .error (.insufficientJudges count (filteredPool t conflicts_data conflict_list).length)
    else .ok (idxs.map fun i => (filteredPool t conflicts_data conflict_list).getD i "")

/-- A legitimate outcome of `random.sample` on a pool of length `n`:
`count` pairwise-distinct in-range indices (slots drawn without
replacement). -/
def validSample (n count : Nat) (idxs : List Nat) : Prop :=
  idxs.length = count ∧ idxs.Nodup ∧ ∀ i ∈ idxs, i < n

instance (n count : Nat) (idxs : List Nat) : Decidable (validSample n count idxs) := by
  unfold validSample
  infer_instance

/-- Typed errors of the pairing pipeline (bot.py lines 132-159 plus the
ValueError paths of `select_judges` surfaced through the catch-all). -/
inductive PairingError where
  | invalidTournament (available : List String)
  | invalidConflictList (available : List String)
  | noEligibleOpponents
  | insufficientJudges (needed : Nat) (available : Nat)
deriving Repr, DecidableEq

/-- The request parameters of the `generate-pairing` command. -/
structure PairingRequest where
  panel : Bool
  tournament : String
  conflicts : String
deriving Repr, DecidableEq

/-- A successful pairing: the requester side, the opponent side, the chosen
opponent, and the sampled judges. -/
structure PairingResult where
  side : String
  opponentSide : String
  opponent : Debater
  judges : List String
deriving Repr, DecidableEq

/-- Eligibility filtering (bot.py lines 147-152): a present `entries` list
restricts the roster to competitors whose name appears in it; a missing
`entries` key or a value whose processing raises falls into the bare
`except` branch, which keeps the full roster. -/
def eligible_opponents (rankings : List Debater) (t : Tournament) : List Debater :=
  match t.entries with
  | .present names => rankings.filter (fun r => names.contains r.name)
  | _ => rankings

/-- Judge count (bot.py line 167): 3 for a panel, else 1. -/
def judge_count (panel : Bool) : Nat := if panel then 3 else 1

/-- The pipeline `generate_pairing` (bot.py lines 119-190): validate the tournament id,
validate the conflict-list id, filter the roster, pick the opponent and the
sides, then sample judges via `select_judges`. `oi` models
`random.choice(eligible_opponents)`, `sideAff` the side coin flip, and
`idxs` the `random.sample` draw. -/
def generate_pairing (rankings : List Debater)
    (tournaments_data : List (String × Tournament))
    (conflicts_data : List (String × List String))
    (req : PairingRequest) (oi : Nat) (sideAff : Bool) (idxs : List Nat) :
    Except PairingError PairingResult :=
  match tournaments_data.lookup req.tournament with
  | none => .error (.invalidTournament (tournaments_data.map Prod.fst))
  | some t =>
    match conflicts_data.lookup req.conflicts with
    | none => .error (.invalidConflictList (conflicts_data.map Prod.fst))
    | some _ =>
      if (eligible_opponents rankings t).isEmpty then .error .noEligibleOpponents
      else
        match select_judges tournaments_data conflicts_data req.tournament
            (some req.conflicts) (judge_count req.panel) idxs with
        | .error (.tournamentNotFound a) => .error (.invalidTournament a)
        | .error (.insufficientJudges n a) => .error (.insufficientJudges n a)
        | .ok judges =>
          .ok ⟨if sideAff then "Aff" else "Neg",
               if sideAff then "Neg" else "Aff",
               (eligible_opponents rankings t).getD oi default,
               judges⟩

/-- The mutable environment visible to `select_judges`: the two catalog
dictionaries passed in by the caller. -/
structure SelState where
  tournaments : List (String × Tournament)
  conflicts : List (String × List String)
deriving Repr, DecidableEq

/-- A statement-by-statement state-passing rendering of `select_judges`
(bot.py lines 60-76): the local `available_judges` starts as a copy of the
judge list and is rebound by the filter comprehension; the state holding
the two catalogs is threaded through and never written. -/
def select_judges_run (s : SelState) (tournament : String)
    (conflict_list : Option String) (count : Nat) (idxs : List Nat) :
    SelState × Except JudgeError (List String) :=
  match s.tournaments.lookup tournament with
  | none => (s, .error (.tournamentNotFound (s.tournaments.map Prod.fst)))
  | some t =>
    let available_judges := t.judges
    let available_judges :=
      match conflict_list with
      | none => available_judges
      | some c =>
        if c = "" then available_judges
        else
          match s.conflicts.lookup c with
          | none => available_judges
          | some conflicted => available_judges.filter (fun j => !conflicted.contains j)
    if available_judges.length < count then
      (s, .error (.insufficientJudges count available_judges.length))
    else
      (s, .ok (idxs.map fun i => available_judges.getD i ""))

/-- A sample competitor used by concrete witnesses. -/
def demoD : Debater := ⟨"1", "Harvard", "Alice", "99"⟩

/-! ### Helper lemmas -/

theorem load_rankings_aux_eq (rows : List CsvRow) : ∀ i : Nat,
    load_rankings_aux i rows
      = (rows.take (50 - i)).map (fun r => ⟨r.rank, r.school, r.name, r.rating⟩) := by
  induction rows with
  | nil => intro i; simp [load_rankings_aux]
  | cons row rest ih =>
    intro i
    by_cases h : 50 ≤ i
    · have h0 : 50 - i = 0 := by omega
      simp [load_rankings_aux, h, h0]
    · have h2 : 50 - i = (50 - (i + 1)) + 1 := by omega
      simp [load_rankings_aux, h, h2, ih (i + 1)]

theorem getD_mem_of_lt {l : List String} {i : Nat} (hi : i < l.length) :
    l.getD i "" ∈ l := by
  rw [List.getD_eq_getElem l "" hi]
  exact List.getElem_mem hi

theorem getD_inj_of_nodup {l : List String} (h : l.Nodup) {i j : Nat}
    (hi : i < l.length) (hj : j < l.length)
    (he : l.getD i "" = l.getD j "") : i = j := by
  rw [List.getD_eq_getElem l "" hi, List.getD_eq_getElem l "" hj] at he
  exact (List.Nodup.getElem_inj_iff h).mp he

theorem filteredPool_truthy (t : Tournament) (cd : List (String × List String))
    {c : String} {excl : List String} (hc : c ≠ "")
    (he : cd.lookup c = some excl) :
    filteredPool t cd (some c) = t.judges.filter (fun j => !excl.contains j) := by
  have h0 : filteredPool t cd (some c)
      = if c = "" then t.judges
        else
          match cd.lookup c with
          | none => t.judges
          | some conflicted => t.judges.filter (fun j => !conflicted.contains j) := rfl
  rw [h0, if_neg hc, he]

theorem generate_pairing_ok_shape (rankings : List Debater)
    (td : List (String × Tournament)) (cd : List (String × List String))
    (req : PairingRequest) (oi : Nat) (sideAff : Bool) (idxs : List Nat)
    (t : Tournament) (ex : List String) (res : PairingResult)
    (ht : td.lookup req.tournament = some t)
    (hex : cd.lookup req.conflicts = some ex)
    (hok : generate_pairing rankings td cd req oi sideAff idxs = .ok res) :
    (eligible_opponents rankings t).isEmpty = false ∧
    res.opponent = (eligible_opponents rankings t).getD oi default ∧
    res.judges = idxs.map (fun i => (filteredPool t cd (some req.conflicts)).getD i "") := by
  simp only [generate_pairing, ht, hex] at hok
  cases hemp : (eligible_opponents rankings t).isEmpty with
  | true => simp [hemp] at hok
  | false =>
    simp only [hemp, Bool.false_eq_true, if_false] at hok
    simp only [select_judges, ht] at hok
    by_cases hlt : (filteredPool t cd (some req.conflicts)).length < judge_count req.panel
    · simp [hlt] at hok
    · rw [if_neg hlt] at hok
      have hok2 : (Except.ok
          (PairingResult.mk (if sideAff then "Aff" else "Neg")
            (if sideAff then "Neg" else "Aff")
            ((eligible_opponents rankings t).getD oi default)
            (idxs.map (fun i => (filteredPool t cd (some req.conflicts)).getD i "")))
          : Except PairingError PairingResult)
          = Except.ok res := hok
      injection hok2 with h3
      rw [← h3]
      exact ⟨rfl, rfl, rfl⟩

/-! ### Claim theorems -/

/-- C7: `load_rankings` returns exactly the first at-most-50 data rows in
source order, each record carrying the rank, school, name and rating
columns; rows past the 50th are silently dropped. -/
theorem load_rankings_take_50 (rows : List CsvRow) :
    load_rankings rows
      = (rows.take 50).map (fun r => ⟨r.rank, r.school, r.name, r.rating⟩) := by
  unfold load_rankings
  simpa using load_rankings_aux_eq rows 0

/-- C10: the state-passing rendering of `select_judges` leaves the
tournament catalog and the conflict catalog exactly as it found them, on
every path (success and both error paths), and returns the same answer as
the functional rendering. -/
theorem select_judges_preserves_state (s : SelState) (tournament : String)
    (cl : Option String) (count : Nat) (idxs : List Nat) :
    (select_judges_run s tournament cl count idxs).1 = s ∧
    (select_judges_run s tournament cl count idxs).2
      = select_judges s.tournaments s.conflicts tournament cl count idxs := by
  have heq : select_judges_run s tournament cl count idxs
      = (s, select_judges s.tournaments s.conflicts tournament cl count idxs) := by
    unfold select_judges_run select_judges filteredPool
    cases h : s.tournaments.lookup tournament with
    | none => rfl
    | some t =>
      dsimp only
      cases cl with
      | none =>
        dsimp only
        by_cases hl : t.judges.length < count
        · simp only [if_pos hl]
        · simp only [if_neg hl]
      | some c =>
        dsimp only
        by_cases hc : c = ""
        · rw [if_pos hc]
          by_cases hl : t.judges.length < count
          · simp only [if_pos hl]
          · simp only [if_neg hl]
        · rw [if_neg hc]
          cases h2 : s.conflicts.lookup c with
          | none =>
            dsimp only
            by_cases hl : t.judges.length < count
            · simp only [if_pos hl]
            · simp only [if_neg hl]
          | some conflicted =>
            dsimp only
            by_cases hl : (t.judges.filter (fun j => !conflicted.contains j)).length < count
            · simp only [if_pos hl]
            · simp only [if_neg hl]
  rw [heq]
  exact ⟨rfl, rfl⟩

/-- C8: when the conflict-list argument is falsy (None or the empty
string), `select_judges` skips conflict filtering entirely: the run is the
same as a run with an empty conflict catalog and no conflict list, even
when the catalog maps the empty-string key to a non-empty exclusion set. -/
theorem falsy_conflicts_skip_filtering (td : List (String × Tournament))
    (cd : List (String × List String)) (tournament : String)
    (count : Nat) (idxs : List Nat) (cl : Option String)
    (hf : cl = none ∨ cl = some "") :
    select_judges td cd tournament cl count idxs
      = select_judges td [] tournament none count idxs := by
  rcases hf with h | h <;> subst h <;>
    unfold select_judges filteredPool <;> cases td.lookup tournament <;> simp

/-- Witness for C8: the conflict catalog maps "" to the non-empty exclusion
set ["A"], yet a request with the empty-string conflict list samples from
the unfiltered pool. -/
theorem falsy_conflicts_skip_filtering_witness :
    select_judges [("t", ⟨["A"], .absent⟩)] [("", ["A"])] "t" (some "") 1 [0]
      = select_judges [("t", ⟨["A"], .absent⟩)] [] "t" none 1 [0] :=
  falsy_conflicts_skip_filtering _ _ _ _ _ _ (Or.inr rfl)

/-- C4: when the conflict-list identifier is not a key of the conflict
catalog, the pipeline fails with `invalidConflictList` carrying the
available conflict ids, instead of proceeding with no filtering. -/
theorem invalid_conflict_list_error (rankings : List Debater)
    (td : List (String × Tournament)) (cd : List (String × List String))
    (req : PairingRequest) (oi : Nat) (sideAff : Bool) (idxs : List Nat)
    (t : Tournament)
    (ht : td.lookup req.tournament = some t)
    (hc : cd.lookup req.conflicts = none) :
    generate_pairing rankings td cd req oi sideAff idxs
      = .error (.invalidConflictList (cd.map Prod.fst)) := by
  unfold generate_pairing
  rw [ht, hc]

/-- Witness for C4: an empty conflict selector that is not a catalog key is
rejected. -/
theorem invalid_conflict_list_error_witness :
    generate_pairing [demoD] [("t", ⟨["A"], .absent⟩)] [("om", ["B"])]
        ⟨false, "t", ""⟩ 0 true []
      = .error (.invalidConflictList ["om"]) :=
  invalid_conflict_list_error _ _ _ _ _ _ _ ⟨["A"], .absent⟩ rfl rfl

/-- C3 (amended): for an unknown tournament id the result is
`invalidTournament` carrying the tournament ids in catalog order, and the
result does not depend on any of the randomness oracles (no randomness is
drawn and no judge pool is touched). -/
theorem invalid_tournament_catalog_order (rankings : List Debater)
    (td : List (String × Tournament)) (cd : List (String × List String))
    (req : PairingRequest) (oi oi2 : Nat) (sideAff sideAff2 : Bool)
    (idxs idxs2 : List Nat)
    (h : td.lookup req.tournament = none) :
    generate_pairing rankings td cd req oi sideAff idxs
      = .error (.invalidTournament (td.map Prod.fst)) ∧
    generate_pairing rankings td cd req oi sideAff idxs
      = generate_pairing rankings td cd req oi2 sideAff2 idxs2 := by
  unfold generate_pairing
  rw [h]
  exact ⟨rfl, rfl⟩

/-- Witness for C3 (amended): an unknown tournament id against a two-entry
catalog yields the error with the keys in catalog order, for any draw of
the oracles. -/
theorem invalid_tournament_catalog_order_witness :
    generate_pairing [] [("b", ⟨["J"], .absent⟩), ("a", ⟨["K"], .absent⟩)] []
        ⟨false, "x", "om"⟩ 0 true []
      = .error (.invalidTournament ["b", "a"]) ∧
    generate_pairing [] [("b", ⟨["J"], .absent⟩), ("a", ⟨["K"], .absent⟩)] []
        ⟨false, "x", "om"⟩ 0 true []
      = generate_pairing [] [("b", ⟨["J"], .absent⟩), ("a", ⟨["K"], .absent⟩)] []
        ⟨false, "x", "om"⟩ 7 false [0, 1] :=
  invalid_tournament_catalog_order _ _ _ _ _ _ _ _ _ _ rfl

/-- C3 counterexample: with catalog keys in the order ["b", "a"] and an
unknown requested tournament, the error carries ["b", "a"], which is not a
sorted list. -/
theorem invalid_tournament_sorted_counterexample :
    generate_pairing [] [("b", ⟨["J"], .absent⟩), ("a", ⟨["K"], .absent⟩)] []
        ⟨false, "x", "om"⟩ 0 true []
      = .error (.invalidTournament ["b", "a"]) ∧
    ¬ List.Sorted (· ≤ ·) (["b", "a"] : List String) := by
  constructor
  · rfl
  · intro h
    have hba : ("b" : String) ≤ "a" := (List.sorted_cons.mp h).1 "a" (by simp)
    rw [String.le_iff_toList_le] at hba
    revert hba
    decide

/-- C6: when the conflict-filtered judge pool has fewer members than the
required judge count (3 for a panel, else 1), the pipeline fails with
`insufficientJudges` reporting the needed count and the pool size. -/
theorem insufficient_judges_error (rankings : List Debater)
    (td : List (String × Tournament)) (cd : List (String × List String))
    (req : PairingRequest) (oi : Nat) (sideAff : Bool) (idxs : List Nat)
    (t : Tournament) (ex : List String)
    (ht : td.lookup req.tournament = some t)
    (hc : cd.lookup req.conflicts = some ex)
    (hne : (eligible_opponents rankings t).isEmpty = false)
    (hlt : (filteredPool t cd (some req.conflicts)).length < judge_count req.panel) :
    generate_pairing rankings td cd req oi sideAff idxs
      = .error (.insufficientJudges (judge_count req.panel)
          (filteredPool t cd (some req.conflicts)).length) := by
  simp only [generate_pairing, ht, hc, hne, Bool.false_eq_true, if_false]
  simp only [select_judges, ht]
  rw [if_pos hlt]

/-- Witness for C6, scenario B of the spec: tournament emory with judges
["A", "B"], conflict list om excluding both, a one-judge request fails with
needed 1, available 0. -/
theorem insufficient_judges_error_witness :
    generate_pairing [demoD] [("emory", ⟨["A", "B"], .absent⟩)] [("om", ["A", "B"])]
        ⟨false, "emory", "om"⟩ 0 true []
      = .error (.insufficientJudges 1 0) :=
  insufficient_judges_error _ _ _ _ _ _ _ ⟨["A", "B"], .absent⟩ ["A", "B"]
    rfl rfl rfl (by decide)

/-- C5: with a present entries list the opponent comes from the roster
restricted to names in that list; with an absent entries field, from the
full roster; and an empty eligible set fails with `noEligibleOpponents`. -/
theorem opponent_eligibility (rankings : List Debater)
    (td : List (String × Tournament)) (cd : List (String × List String))
    (req : PairingRequest) (oi : Nat) (sideAff : Bool) (idxs : List Nat)
    (t : Tournament) (enames : List String) (res : PairingResult)
    (ht : td.lookup req.tournament = some t)
    (hcd : (cd.lookup req.conflicts).isSome = true) :
    (eligible_opponents rankings t = [] →
      generate_pairing rankings td cd req oi sideAff idxs
        = .error .noEligibleOpponents) ∧
    (generate_pairing rankings td cd req oi sideAff idxs = .ok res →
      oi < (eligible_opponents rankings t).length →
      res.opponent ∈ rankings ∧
      (t.entries = .present enames → enames.contains res.opponent.name = true) ∧
      (t.entries = .absent → res.opponent ∈ rankings)) := by
  obtain ⟨ex, hex⟩ := Option.isSome_iff_exists.mp hcd
  constructor
  · intro hemp
    simp only [generate_pairing, ht, hex, hemp, List.isEmpty_nil, if_true]
  · intro hok hoi
    obtain ⟨-, hop, -⟩ :=
      generate_pairing_ok_shape rankings td cd req oi sideAff idxs t ex res ht hex hok
    have hmem : res.opponent ∈ eligible_opponents rankings t := by
      rw [hop, List.getD_eq_getElem _ _ hoi]
      exact List.getElem_mem hoi
    refine ⟨?_, ?_, fun _ => ?_⟩
    · revert hmem
      unfold eligible_opponents
      cases t.entries with
      | present names => intro hmem; exact (List.mem_filter.mp hmem).1
      | absent => intro hmem; exact hmem
      | invalid => intro hmem; exact hmem
    · intro hpres
      rw [eligible_opponents, hpres] at hmem
      exact (List.mem_filter.mp hmem).2
    · revert hmem
      unfold eligible_opponents
      cases t.entries with
      | present names => intro hmem; exact (List.mem_filter.mp hmem).1
      | absent => intro hmem; exact hmem
      | invalid => intro hmem; exact hmem

/-- Witness for C5: tournament with entries ["Alice"], roster containing
Alice only, one judge: the pairing succeeds and the opponent facts hold. -/
theorem opponent_eligibility_witness :
    (eligible_opponents [demoD] ⟨["A"], .present ["Alice"]⟩ = [] →
      generate_pairing [demoD] [("t", ⟨["A"], .present ["Alice"]⟩)] [("om", [])]
          ⟨false, "t", "om"⟩ 0 true [0]
        = .error .noEligibleOpponents) ∧
    (generate_pairing [demoD] [("t", ⟨["A"], .present ["Alice"]⟩)] [("om", [])]
          ⟨false, "t", "om"⟩ 0 true [0]
        = .ok ⟨"Aff", "Neg", demoD, ["A"]⟩ →
      (0 : Nat) < (eligible_opponents [demoD] ⟨["A"], .present ["Alice"]⟩).length →
      (PairingResult.mk "Aff" "Neg" demoD ["A"]).opponent ∈ [demoD] ∧
      ((Tournament.mk ["A"] (.present ["Alice"])).entries = .present ["Alice"] →
        (["Alice"] : List String).contains
          (PairingResult.mk "Aff" "Neg" demoD ["A"]).opponent.name = true) ∧
      ((Tournament.mk ["A"] (.present ["Alice"])).entries = .absent →
        (PairingResult.mk "Aff" "Neg" demoD ["A"]).opponent ∈ [demoD])) :=
  opponent_eligibility [demoD] [("t", ⟨["A"], .present ["Alice"]⟩)] [("om", [])]
    ⟨false, "t", "om"⟩ 0 true [0] ⟨["A"], .present ["Alice"]⟩ ["Alice"]
    ⟨"Aff", "Neg", demoD, ["A"]⟩ rfl rfl

/-- C9: when the selected tournament record has an entries value whose
processing raises, the pipeline silently keeps the full roster as the
eligible set and never fails with `noEligibleOpponents` on a non-empty
roster. -/
theorem invalid_entries_fallback (rankings : List Debater)
    (td : List (String × Tournament)) (cd : List (String × List String))
    (req : PairingRequest) (oi : Nat) (sideAff : Bool) (idxs : List Nat)
    (t : Tournament)
    (ht : td.lookup req.tournament = some t)
    (hinv : t.entries = .invalid)
    (hcd : (cd.lookup req.conflicts).isSome = true)
    (hr : rankings ≠ []) :
    eligible_opponents rankings t = rankings ∧
    generate_pairing rankings td cd req oi sideAff idxs
      ≠ .error .noEligibleOpponents := by
  have helig : eligible_opponents rankings t = rankings := by
    unfold eligible_opponents
    rw [hinv]
  refine ⟨helig, ?_⟩
  obtain ⟨ex, hex⟩ := Option.isSome_iff_exists.mp hcd
  intro hcontra
  have hemp : (eligible_opponents rankings t).isEmpty = false := by
    rw [helig]
    exact List.isEmpty_eq_false.mpr hr
  simp only [generate_pairing, ht, hex, hemp, Bool.false_eq_true, if_false] at hcontra
  cases hsel : select_judges td cd req.tournament (some req.conflicts)
      (judge_count req.panel) idxs with
  | error e =>
    cases e <;> rw [hsel] at hcontra <;> simp at hcontra
  | ok js =>
    rw [hsel] at hcontra
    simp at hcontra

/-- Witness for C9: a tournament whose entries value raises during
processing still produces the full roster as eligible set. -/
theorem invalid_entries_fallback_witness :
    eligible_opponents [demoD] ⟨["A"], .invalid⟩ = [demoD] ∧
    generate_pairing [demoD] [("t", ⟨["A"], .invalid⟩)] [("om", ["x"])]
        ⟨false, "t", "om"⟩ 0 true [0]
      ≠ .error .noEligibleOpponents :=
  invalid_entries_fallback [demoD] [("t", ⟨["A"], .invalid⟩)] [("om", ["x"])]
    ⟨false, "t", "om"⟩ 0 true [0] ⟨["A"], .invalid⟩ rfl rfl rfl (by simp)

/-- C1 (amended): whenever the selected conflict identifier is a non-empty
string (so the filter is not skipped by truthiness), the judges of every
successful result are disjoint from the exclusion set it maps to. -/
theorem judges_disjoint_of_truthy_conflicts (rankings : List Debater)
    (td : List (String × Tournament)) (cd : List (String × List String))
    (req : PairingRequest) (oi : Nat) (sideAff : Bool) (idxs : List Nat)
    (t : Tournament) (excl : List String) (res : PairingResult)
    (ht : td.lookup req.tournament = some t)
    (hc : req.conflicts ≠ "")
    (he : cd.lookup req.conflicts = some excl)
    (hidx : ∀ i ∈ idxs, i < (filteredPool t cd (some req.conflicts)).length)
    (hok : generate_pairing rankings td cd req oi sideAff idxs = .ok res) :
    res.judges.Disjoint excl := by
  obtain ⟨-, -, hj⟩ :=
    generate_pairing_ok_shape rankings td cd req oi sideAff idxs t excl res ht he hok
  rw [filteredPool_truthy t cd hc he] at hj
  have hidx2 : ∀ i ∈ idxs,
      i < (t.judges.filter (fun j => !excl.contains j)).length := by
    rw [← filteredPool_truthy t cd hc he]
    exact hidx
  intro j hj2 hjex
  rw [hj] at hj2
  obtain ⟨i, hi, rfl⟩ := List.mem_map.mp hj2
  have hmem := getD_mem_of_lt (hidx2 i hi)
  have hni := (List.mem_filter.mp hmem).2
  rw [Bool.not_eq_true'] at hni
  have hni2 : excl.elem ((t.judges.filter (fun j => !excl.contains j)).getD i "")
      = false := hni
  rw [List.elem_eq_mem, decide_eq_false_iff_not] at hni2
  exact hni2 hjex

/-- Witness for C1 (amended): conflict list om excludes B, so the single
returned judge A avoids it. -/
theorem judges_disjoint_witness :
    (PairingResult.mk "Aff" "Neg" demoD ["A"]).judges.Disjoint ["B"] :=
  judges_disjoint_of_truthy_conflicts [demoD] [("t", ⟨["A", "B"], .absent⟩)]
    [("om", ["B"])] ⟨false, "t", "om"⟩ 0 true [0] ⟨["A", "B"], .absent⟩ ["B"]
    ⟨"Aff", "Neg", demoD, ["A"]⟩ rfl (by decide) rfl (by decide) rfl

/-- C1 counterexample: the empty string is a key of the conflict catalog
mapping to the non-empty exclusion set ["A"]; a request selecting that key
passes validation, yet the truthiness test skips the filter and the
returned judge "A" lies in the exclusion set. -/
theorem judges_disjoint_counterexample :
    validSample (filteredPool ⟨["A"], .absent⟩ [("", ["A"])] (some "")).length 1 [0] ∧
    generate_pairing [demoD] [("t", ⟨["A"], .absent⟩)] [("", ["A"])]
        ⟨false, "t", ""⟩ 0 true [0]
      = .ok ⟨"Aff", "Neg", demoD, ["A"]⟩ ∧
    (["A"] : List String) ≠ [] ∧
    ¬ (PairingResult.mk "Aff" "Neg" demoD ["A"]).judges.Disjoint ["A"] := by
  refine ⟨by decide, rfl, by decide, ?_⟩
  intro h
  exact h (show "A" ∈ ["A"] by decide) (by decide)

/-- C2 (amended): with a legitimate without-replacement draw, a successful
result has exactly `judge_count panel` judges (3 for a panel, else 1), drawn
at pairwise-distinct pool positions, hence pairwise-distinct names whenever
the conflict-filtered pool itself has no duplicate names. -/
theorem judge_sample_length_nodup (rankings : List Debater)
    (td : List (String × Tournament)) (cd : List (String × List String))
    (req : PairingRequest) (oi : Nat) (sideAff : Bool) (idxs : List Nat)
    (t : Tournament) (res : PairingResult)
    (ht : td.lookup req.tournament = some t)
    (hv : validSample (filteredPool t cd (some req.conflicts)).length
      (judge_count req.panel) idxs)
    (hok : generate_pairing rankings td cd req oi sideAff idxs = .ok res) :
    res.judges.length = judge_count req.panel ∧
    ((filteredPool t cd (some req.conflicts)).Nodup → res.judges.Nodup) := by
  cases hex : cd.lookup req.conflicts with
  | none => simp [generate_pairing, ht, hex] at hok
  | some ex =>
    obtain ⟨-, -, hj⟩ :=
      generate_pairing_ok_shape rankings td cd req oi sideAff idxs t ex res ht hex hok
    obtain ⟨hlen, hnd, hbound⟩ := hv
    constructor
    · rw [hj, List.length_map, hlen]
    · intro hpool
      rw [hj]
      refine List.Nodup.map_on ?_ hnd
      intro i hi j hjj he
      exact getD_inj_of_nodup hpool (hbound i hi) (hbound j hjj) he

/-- Witness for C2 (amended): a 3-judge panel drawn from a 3-name pool. -/
theorem judge_sample_length_nodup_witness :
    (PairingResult.mk "Aff" "Neg" demoD ["A", "B", "C"]).judges.length
      = judge_count true ∧
    ((filteredPool ⟨["A", "B", "C"], .absent⟩ [("om", [])] (some "om")).Nodup →
      (PairingResult.mk "Aff" "Neg" demoD ["A", "B", "C"]).judges.Nodup) :=
  judge_sample_length_nodup [demoD] [("t", ⟨["A", "B", "C"], .absent⟩)] [("om", [])]
    ⟨true, "t", "om"⟩ 0 true [0, 1, 2] ⟨["A", "B", "C"], .absent⟩
    ⟨"Aff", "Neg", demoD, ["A", "B", "C"]⟩ rfl (by decide) rfl

/-- C2 counterexample: a pool with the duplicate name A twice; the draw
[0, 1, 2] is a legitimate without-replacement sample, yet the returned
panel ["A", "A", "B"] repeats the name A, so the judges are not pairwise
distinct. -/
theorem judge_sample_counterexample :
    validSample
      (filteredPool ⟨["A", "A", "B"], .absent⟩ [("om", [])] (some "om")).length
      (judge_count true) [0, 1, 2] ∧
    generate_pairing [demoD] [("t", ⟨["A", "A", "B"], .absent⟩)] [("om", [])]
        ⟨true, "t", "om"⟩ 0 true [0, 1, 2]
      = .ok ⟨"Aff", "Neg", demoD, ["A", "A", "B"]⟩ ∧
    ¬ (["A", "A", "B"] : List String).Nodup := by
  refine ⟨by decide, rfl, by decide⟩
